import Mathlib

/-!
Shallow embedding of the goxray/tun VPN client (pkg/client/client.go and the
instrumented stream wrapper), with theorems checking the specification's
claims about configuration resolution, the Connect/Disconnect lifecycle, the
route exception, the instrumented stream counters and the start barrier of
the copy loop.  External calls (gateway discovery, xray engine, TUN device,
routing table, the copy loop) are modelled by explicit oracles holding each
call's outcome, so the functions of the package become pure functions of
those oracles.
-/

namespace GoxrayTun

/-- Model of a Go error value: either a plain error carrying a message, or
the join error produced by the errors.Join function of the Go standard
library, which wraps the list of its non-nil arguments. -/
inductive GoErr where
  | leaf (msg : String) : GoErr
  | joined (errs : List GoErr) : GoErr

/-- Semantics of errors.Join from the Go standard library: nil arguments are
discarded; the result is nil iff every argument is nil, otherwise it is a
join error wrapping all non-nil arguments in order. -/
def errorsJoin (args : List (Option GoErr)) : Option GoErr :=
  match args.filterMap id with
  | [] => none
  | l => some (GoErr.joined l)

/-- Flatten a Go error into the list of its leaf messages, in order. -/
def GoErr.leaves : GoErr → List String
  | .leaf m => [m]
  | .joined [] => []
  | .joined (e :: es) => e.leaves ++ (GoErr.joined es).leaves

/-- Leaf messages of an optional error (a nil error has none). -/
def leavesOpt : Option GoErr → List String
  | none => []
  | some e => e.leaves

/-- IP addresses are carried as their literal text; the client never computes
on the bytes of an address. -/
abbrev IP := String

/-- Model of route.Addr: a destination prefix obtained by parsing a CIDR
string, an address part plus a mask length. -/
structure RouteAddr where
  ip : List Char
  maskLen : Nat
deriving DecidableEq, Repr

/-- Split a character list on the slash character, the list of groups
between slashes (the behavior of splitting a CIDR string). -/
def splitOnSlash : List Char → List (List Char)
  | [] => [[]]
  | c :: cs =>
    if c = '/' then [] :: splitOnSlash cs
    else
      match splitOnSlash cs with
      | [] => [[c]]
      | g :: gs => (c :: g) :: gs

/-- Decimal value of a digit string. -/
def decDigits (l : List Char) : Nat :=
  l.foldl (fun n c => n * 10 + (c.toNat - 48)) 0

/-- Model of route.MustParseAddr: parse a CIDR string of the form
address slash length into a RouteAddr. -/
def mustParseAddr (s : List Char) : RouteAddr :=
  match splitOnSlash s with
  | [ipPart, lenPart] => { ip := ipPart, maskLen := decDigits lenPart }
  | _ => { ip := s, maskLen := 0 }

/-- Model of route.Opts: either an interface name or a gateway, plus the
destination prefixes routed to it. -/
structure RouteOpts where
  IfName : List Char
  Gateway : IP
  Routes : List RouteAddr
deriving DecidableEq, Repr

/-- Model of Client.xrayToGatewayRoute: the exception route options built
from the configured gateway and the parsed xray remote server address, a
single destination obtained by appending the string slash 32 to the
address and parsing it. -/
def xrayToGatewayRoute (gatewayIP : IP) (xrayAddress : List Char) : RouteOpts :=
  { IfName := [], Gateway := gatewayIP,
    Routes := [mustParseAddr (xrayAddress ++ ('/' :: ['3', '2']))] }

/-- Model of the Proxy struct: inbound proxy address and port. -/
structure Proxy where
  ip : IP
  port : Int
deriving DecidableEq, Repr

/-- Model of net.IPNet: an address with a mask. -/
structure IPNet where
  ip : IP
  mask : IP
deriving DecidableEq, Repr

/-- Model of the Config struct.  Pointer and slice fields are Options (a Go
nil pointer or nil slice is none); loggers are carried as opaque numeric
identities since the client only stores and passes them. -/
structure Config where
  GatewayIP : Option IP
  InboundProxy : Option Proxy
  TUNAddress : Option IPNet
  RoutesToTUN : Option (List RouteAddr)
  TLSAllowInsecure : Bool
  Logger : Option Nat
deriving DecidableEq, Repr

/-- Model of the Client struct: the resolved configuration (the runtime
handles xInst, tunnel, tunnelStopped and stopTunnel are modelled separately,
by the connect and disconnect oracles below). -/
structure Client where
  cfg : Config
deriving DecidableEq, Repr

/-- Default TUN device address 192.18.0.1 mask 255.255.255.255. -/
def defaultTUNAddress : IPNet := { ip := "192.18.0.1", mask := "255.255.255.255" }

/-- Default inbound proxy listening on 127.0.0.1 port 10808. -/
def defaultInboundProxy : Proxy := { ip := "127.0.0.1", port := 10808 }

/-- The two covering prefixes used to reroute all traffic. -/
def DefaultRoutesToTUN : List RouteAddr :=
  [mustParseAddr "0.0.0.0/1".data, mustParseAddr "128.0.0.0/1".data]

/-- Identity of the default logger NewClient builds. -/
def defaultLoggerId : Nat := 0

/-- Model of NewClient.  The outcome of the gateway.DiscoverGateway system
call is an explicit input: some ip when discovery succeeds, none when it
fails.  On success every configuration field is set to its default and
TLSAllowInsecure is left at its zero value false. -/
def NewClient (discoveredGateway : Option IP) : Except String Client :=
  match discoveredGateway with
  | none => .error "discover gateway"
  | some gw =>
    .ok { cfg := { GatewayIP := some gw,
                   InboundProxy := some defaultInboundProxy,
                   TUNAddress := some defaultTUNAddress,
                   RoutesToTUN := some DefaultRoutesToTUN,
                   TLSAllowInsecure := false,
                   Logger := some defaultLoggerId } }

/-- Model of NewClientWithOpts.  It first calls NewClient (so gateway
discovery always runs), then applies the switch statement of the source:
an expressionless Go switch executes only the FIRST case whose condition
holds, so only the first non-nil field of the supplied configuration is
copied over the defaults.  The TLSAllowInsecure field has no case and is
never copied. -/
def NewClientWithOpts (discoveredGateway : Option IP) (cfg : Config) :
    Except String Client :=
  match NewClient discoveredGateway with
  | .error e => .error e
  | .ok client =>
    .ok { client with cfg :=
      if cfg.GatewayIP.isSome then { client.cfg with GatewayIP := cfg.GatewayIP }
      else if cfg.InboundProxy.isSome then { client.cfg with InboundProxy := cfg.InboundProxy }
      else if cfg.TUNAddress.isSome then { client.cfg with TUNAddress := cfg.TUNAddress }
      else if cfg.RoutesToTUN.isSome then { client.cfg with RoutesToTUN := cfg.RoutesToTUN }
      else if cfg.Logger.isSome then { client.cfg with Logger := cfg.Logger }
      else client.cfg }

/-- Outcomes of the external calls a Connect call makes, in program order:
parsing the link, making the xray instance, starting it, the three calls
inside setupTunnel (create the TUN device, bring it up, add the redirect
routes), and the pre-emptive delete plus the add of the exception route.
A none outcome is a nil error (success). -/
structure ConnectEnv where
  parseErr : Option String
  makeInstanceErr : Option String
  xrayAddress : List Char
  startErr : Option String
  tunCreateErr : Option String
  tunUpErr : Option String
  tunRouteAddErr : Option String
  excDeleteErr : Option String
  excAddErr : Option String
deriving DecidableEq, Repr

/-- Persistent system state that Connect establishes: whether the xray proxy
engine is running, whether a TUN device exists, whether the redirect routes
to the TUN were added, and the exception route entry if present. -/
structure SysState where
  xrayStarted : Bool
  tunDeviceOpen : Bool
  tunRoutesInstalled : Bool
  exceptionRoute : Option RouteOpts
deriving DecidableEq, Repr

/-- The clean system state before any Connect. -/
def cleanSys : SysState :=
  { xrayStarted := false, tunDeviceOpen := false, tunRoutesInstalled := false,
    exceptionRoute := none }

/-- Model of setupTunnel: create the TUN device, bring it up, add the
redirect routes.  As in the source, a failure of Up or of the route add
returns the error without closing the already created device. -/
def setupTunnel (env : ConnectEnv) (s : SysState) : Option String × SysState :=
  match env.tunCreateErr with
  | some e => (some ("create tun: " ++ e), s)
  | none =>
    let s1 : SysState := { s with tunDeviceOpen := true }
    match env.tunUpErr with
    | some e => (some ("setup interface: " ++ e), s1)
    | none =>
      match env.tunRouteAddErr with
      | some e => (some ("add route: " ++ e), s1)
      | none => (none, { s1 with tunRoutesInstalled := true })

/-- Model of Client.Connect as a pure function of the call-outcome oracle and
the system state.  It follows the source exactly: each step returns its
error as soon as it fails, with NO rollback of what earlier steps
established; the pre-emptive delete of a stale exception route has its
result discarded; on success the exception route is present and nil is
returned. -/
def Connect (gatewayIP : IP) (env : ConnectEnv) (s : SysState) :
    Option String × SysState :=
  match env.parseErr with
  | some e => (some ("create xray core instance: parse xray config link: " ++ e), s)
  | none =>
  match env.makeInstanceErr with
  | some e => (some ("create xray core instance: make xray instance: " ++ e), s)
  | none =>
  match env.startErr with
  | some e => (some ("start xray core instance: " ++ e), s)
  | none =>
  let s1 : SysState := { s with xrayStarted := true }
  match setupTunnel env s1 with
  | (some e, s2) => (some ("setup TUN device: " ++ e), s2)
  | (none, s2) =>
  let s3 : SysState :=
    if env.excDeleteErr = none then { s2 with exceptionRoute := none } else s2
  match env.excAddErr with
  | some e => (some ("add xray server route exception: " ++ e), s3)
  | none =>
    let exc := some (xrayToGatewayRoute gatewayIP env.xrayAddress)
    (none, { s3 with exceptionRoute := exc })

/-- Outcome of the select at the end of Disconnect: either the tunnelStopped
channel delivered the copy loop's result, or the composed context expired
first. -/
inductive WaitOutcome where
  | tunnelStopped (copyErr : Option GoErr)
  | ctxDone (ctxErr : String)

/-- The error the select branch contributes to the aggregate. -/
def waitErrOpt : WaitOutcome → Option GoErr
  | .tunnelStopped te => te
  | .ctxDone ce => some (.leaf ce)

/-- Outcomes of the external calls a Disconnect call makes: closing the xray
instance, closing the TUN device, deleting the exception route, and the
select on the completion channel versus the context. -/
structure DisconnectEnv where
  xrayCloseErr : Option GoErr
  tunCloseErr : Option GoErr
  excDeleteErr : Option GoErr
  wait : WaitOutcome

/-- Model of Client.Disconnect, threading an explicit log of the external
calls it performs, in order.  As in the source, the three teardown calls are
the arguments of one errors.Join call, so all three are made whatever each
returns; the select's contribution is then joined in front. -/
def Disconnect (env : DisconnectEnv) : Option GoErr × List String :=
  let log : List String := ["stopTunnel", "xInst.Close", "tunnel.Close", "route.Delete"]
  let err := errorsJoin [env.xrayCloseErr, env.tunCloseErr, env.excDeleteErr]
  (errorsJoin [waitErrOpt env.wait, err], log)

/-- Timed model of the final wait in Disconnect.  All times are absolute
instants in seconds; the caller's context carries an optional deadline, the
tunnelStopped channel delivers at signalTime (none when the copy loop never
signals). -/
structure WaitEnv where
  now : Nat
  callerDeadline : Option Nat
  signalTime : Option Nat
  copyErr : Option GoErr

/-- The fixed disconnect timeout of 30 seconds. -/
def disconnectTimeout : Nat := 30

/-- Semantics of context.WithTimeout over the caller's context: the composed
deadline is 30 seconds from now, or the caller's deadline when that one is
earlier. -/
def effectiveDeadline (w : WaitEnv) : Nat :=
  match w.callerDeadline with
  | none => w.now + disconnectTimeout
  | some d => min d (w.now + disconnectTimeout)

/-- Which branch of the select fires: the channel when its delivery is no
later than the composed deadline, the context expiry otherwise (and always,
when the copy loop never signals). -/
def waitSelect (w : WaitEnv) : WaitOutcome :=
  match w.signalTime with
  | some t =>
    if t ≤ effectiveDeadline w then .tunnelStopped w.copyErr
    else .ctxDone "context deadline exceeded"
  | none => .ctxDone "context deadline exceeded"

/-- The instant the select, hence Disconnect, returns. -/
def waitReturnTime (w : WaitEnv) : Nat :=
  match w.signalTime with
  | some t => min t (effectiveDeadline w)
  | none => effectiveDeadline w

/-- Result of one underlying Read or Write call: the byte count (a Go int)
and the error. -/
structure IORes where
  n : Int
  err : Option String
deriving DecidableEq, Repr

/-- Two's-complement wraparound of a 64-bit Go int. -/
def wrap64 (x : Int) : Int := (x + 2 ^ 63) % 2 ^ 64 - 2 ^ 63

/-- Model of the readerMetrics wrapper state: its two byte counters. -/
structure ReaderMetrics where
  nRead : Int
  nWritten : Int
deriving DecidableEq, Repr

/-- Model of newReaderMetrics: both counters start at zero. -/
def newReaderMetrics : ReaderMetrics := { nRead := 0, nWritten := 0 }

/-- Model of readerMetrics.Read: the underlying call's result is the input;
its byte count and error are returned unchanged, and nRead is incremented by
the count exactly when the error is nil (Go int addition wraps). -/
def rmRead (s : ReaderMetrics) (underlying : IORes) : IORes × ReaderMetrics :=
  (underlying,
   if underlying.err = none then { s with nRead := wrap64 (s.nRead + underlying.n) }
   else s)

/-- Model of readerMetrics.Write, same shape as rmRead on nWritten. -/
def rmWrite (s : ReaderMetrics) (underlying : IORes) : IORes × ReaderMetrics :=
  (underlying,
   if underlying.err = none then { s with nWritten := wrap64 (s.nWritten + underlying.n) }
   else s)

/-- One call on the wrapper, holding the underlying call's result. -/
inductive StreamOp where
  | read (r : IORes)
  | write (r : IORes)
deriving DecidableEq, Repr

/-- The underlying result an operation carries. -/
def StreamOp.res : StreamOp → IORes
  | .read r => r
  | .write r => r

/-- Run a sequence of calls on the wrapper, collecting the values each call
returns to the caller and the final counter state. -/
def runOps (s : ReaderMetrics) : List StreamOp → List IORes × ReaderMetrics
  | [] => ([], s)
  | op :: ops =>
    let step := match op with
      | .read r => rmRead s r
      | .write r => rmWrite s r
    let rest := runOps step.2 ops
    (step.1 :: rest.1, rest.2)

/-- Sum of the byte counts of the successful Read calls of a sequence. -/
def succReadBytes : List StreamOp → Int
  | [] => 0
  | .read r :: ops => (if r.err = none then r.n else 0) + succReadBytes ops
  | .write _ :: ops => succReadBytes ops

/-- Sum of the byte counts of the successful Write calls of a sequence. -/
def succWriteBytes : List StreamOp → Int
  | [] => 0
  | .read _ :: ops => succWriteBytes ops
  | .write r :: ops => (if r.err = none then r.n else 0) + succWriteBytes ops

/-- Threads of the synchronization barrier at the end of Connect. -/
inductive Tid where
  | main
  | worker
deriving DecidableEq, Repr

/-- Interleaving state of the WaitGroup barrier at the end of Connect.
mainPC 0 is at wg.Add(1), 1 at the go statement, 2 blocked in wg.Wait, 3
Connect has returned; workerPC 0 means the goroutine has not yet executed
its first statement (which is wg.Done), workerPC 1 means wg.Done ran and
the goroutine is at its call into the copy function, larger values are
later execution. -/
structure BarrierState where
  mainPC : Nat
  workerPC : Nat
  spawned : Bool
  wgCount : Nat
deriving DecidableEq, Repr

/-- State before Connect reaches the barrier code. -/
def initBarrier : BarrierState :=
  { mainPC := 0, workerPC := 0, spawned := false, wgCount := 0 }

/-- One scheduler step: the chosen thread executes its next statement (a
thread with nothing to run, the worker before the go statement or either
thread when blocked or finished, leaves the state unchanged). -/
def stepBarrier (s : BarrierState) : Tid → BarrierState
  | .main =>
    match s.mainPC with
    | 0 => { s with mainPC := 1, wgCount := s.wgCount + 1 }
    | 1 => { s with mainPC := 2, spawned := true }
    | 2 => if s.wgCount = 0 then { s with mainPC := 3 } else s
    | _ => s
  | .worker =>
    if s.spawned then
      match s.workerPC with
      | 0 => { s with workerPC := 1, wgCount := s.wgCount - 1 }
      | k => { s with workerPC := k + 1 }
    else s

/-- Run the barrier under a scheduler choice sequence. -/
def runBarrier (sched : List Tid) : BarrierState :=
  sched.foldl stepBarrier initBarrier

/-- Condition on a call sequence: every successful underlying call reported
a nonnegative byte count (the io.Reader and io.Writer contracts). -/
def opsNonneg (ops : List StreamOp) : Prop :=
  ∀ op ∈ ops, op.res.err = none → 0 ≤ op.res.n

instance (ops : List StreamOp) : Decidable (opsNonneg ops) := by
  unfold opsNonneg
  infer_instance

/-- Invariant of the barrier interleaving: the spawn flag tracks the main
program counter, the worker cannot have run before the spawn, the WaitGroup
counter is determined by the two program counters, the main counter is
bounded, and once Connect has returned the worker has executed its first
statement. -/
def BarrierInv (s : BarrierState) : Prop :=
  (s.spawned = true ↔ 2 ≤ s.mainPC) ∧
  (s.spawned = false → s.workerPC = 0) ∧
  s.wgCount = (if s.mainPC = 0 then 0 else if s.workerPC = 0 then 1 else 0) ∧
  s.mainPC ≤ 3 ∧
  (s.mainPC = 3 → 1 ≤ s.workerPC)

/-- Connect oracle where every step succeeds except the add of the exception
route, which fails. -/
def c1Env : ConnectEnv :=
  { parseErr := none, makeInstanceErr := none, xrayAddress := "203.0.113.5".data,
    startErr := none, tunCreateErr := none, tunUpErr := none,
    tunRouteAddErr := none, excDeleteErr := none,
    excAddErr := some "operation not permitted" }

/-- Connect oracle where every step succeeds and the pre-emptive delete of a
stale exception route fails. -/
def c5Env : ConnectEnv :=
  { parseErr := none, makeInstanceErr := none, xrayAddress := "203.0.113.5".data,
    startErr := none, tunCreateErr := none, tunUpErr := none,
    tunRouteAddErr := none, excDeleteErr := some "no such route",
    excAddErr := none }

/-- Partial configuration supplying both a gateway and a logger. -/
def c2Cfg : Config :=
  { GatewayIP := some "10.0.0.1", InboundProxy := none, TUNAddress := none,
    RoutesToTUN := none, TLSAllowInsecure := false, Logger := some 7 }

/-- Partial configuration supplying only a gateway. -/
def c8Cfg : Config :=
  { GatewayIP := some "10.0.0.1", InboundProxy := none, TUNAddress := none,
    RoutesToTUN := none, TLSAllowInsecure := false, Logger := none }

/-- The client NewClientWithOpts builds from c8Cfg when discovery returns
some gateway: the supplied gateway with every other field at its default. -/
def c8Client : Client :=
  { cfg := { GatewayIP := some "10.0.0.1",
             InboundProxy := some defaultInboundProxy,
             TUNAddress := some defaultTUNAddress,
             RoutesToTUN := some DefaultRoutesToTUN,
             TLSAllowInsecure := false,
             Logger := some defaultLoggerId } }

/-- Partial configuration requesting insecure TLS and nothing else. -/
def c10Cfg : Config :=
  { GatewayIP := none, InboundProxy := none, TUNAddress := none,
    RoutesToTUN := none, TLSAllowInsecure := true, Logger := none }

/-- The client NewClientWithOpts builds from c10Cfg: all defaults, and the
TLSAllowInsecure request was not copied. -/
def c10Client : Client :=
  { cfg := { GatewayIP := some "9.9.9.9",
             InboundProxy := some defaultInboundProxy,
             TUNAddress := some defaultTUNAddress,
             RoutesToTUN := some DefaultRoutesToTUN,
             TLSAllowInsecure := false,
             Logger := some defaultLoggerId } }

/-- Concrete call sequence for the instrumented stream: two successful
calls of 3 and 2 bytes read, a successful 7-byte write, a failed 5-byte
write. -/
def c7Ops : List StreamOp :=
  [.read { n := 3, err := none }, .write { n := 7, err := none },
   .write { n := 5, err := some "io failure" }, .read { n := 2, err := none }]

/-- A scheduler run of the barrier: main runs wg.Add and the go statement,
the worker executes wg.Done, main passes wg.Wait and returns. -/
def c9Sched : List Tid := [.main, .main, .worker, .main]

/-- Wait environment where the copy loop never signals and the caller set no
deadline. -/
def c4Wait : WaitEnv :=
  { now := 5, callerDeadline := none, signalTime := none, copyErr := none }

theorem splitOnSlash_ne_nil (l : List Char) : splitOnSlash l ≠ [] := by
  induction l with
  | nil => simp [splitOnSlash]
  | cons c cs ih =>
    simp only [splitOnSlash]
    split
    · simp
    · cases h : splitOnSlash cs with
      | nil => exact absurd h ih
      | cons g gs => simp

theorem splitOnSlash_append (a b : List Char) (h : '/' ∉ a) :
    splitOnSlash (a ++ '/' :: b) = a :: splitOnSlash b := by
  induction a with
  | nil => simp [splitOnSlash]
  | cons c cs ih =>
    have hc : ¬ (c = '/') := by
      intro hh
      exact h (by simp [hh])
    have hcs : '/' ∉ cs := fun hh => h (List.mem_cons_of_mem _ hh)
    simp only [List.cons_append, splitOnSlash, if_neg hc, List.append_eq]
    rw [ih hcs]

theorem leavesOpt_errorsJoin_two (a b : Option GoErr) :
    leavesOpt (errorsJoin [a, b]) = leavesOpt a ++ leavesOpt b := by
  cases a <;> cases b <;>
    simp [errorsJoin, leavesOpt, GoErr.leaves, List.filterMap]

theorem leavesOpt_errorsJoin_three (a b c : Option GoErr) :
    leavesOpt (errorsJoin [a, b, c]) =
      leavesOpt a ++ leavesOpt b ++ leavesOpt c := by
  cases a <;> cases b <;> cases c <;>
    simp [errorsJoin, leavesOpt, GoErr.leaves, List.filterMap]

theorem errorsJoin_two_eq_none (a b : Option GoErr) :
    errorsJoin [a, b] = none ↔ a = none ∧ b = none := by
  cases a <;> cases b <;> simp [errorsJoin, List.filterMap]

theorem errorsJoin_three_eq_none (a b c : Option GoErr) :
    errorsJoin [a, b, c] = none ↔ a = none ∧ b = none ∧ c = none := by
  cases a <;> cases b <;> cases c <;> simp [errorsJoin, List.filterMap]

theorem wrap64_id (x : Int) (h0 : 0 ≤ x) (h1 : x < 2 ^ 63) : wrap64 x = x := by
  unfold wrap64
  have e63 : (2 : Int) ^ 63 = 9223372036854775808 := by norm_num
  have e64 : (2 : Int) ^ 64 = 18446744073709551616 := by norm_num
  rw [e63, e64] at *
  rw [Int.emod_eq_of_lt (by omega) (by omega)]
  omega

theorem succReadBytes_nonneg (ops : List StreamOp) (h : opsNonneg ops) :
    0 ≤ succReadBytes ops := by
  induction ops with
  | nil => simp [succReadBytes]
  | cons op ops ih =>
    have hops : opsNonneg ops := fun o ho => h o (List.mem_cons_of_mem _ ho)
    cases op with
    | read r =>
      have := h (.read r) (List.mem_cons_self _ _)
      simp only [succReadBytes]
      have h2 : (0 : Int) ≤ if r.err = none then r.n else 0 := by
        split
        · exact this (by assumption)
        · exact le_refl 0
      have := ih hops
      omega
    | write r =>
      simpa [succReadBytes] using ih hops

theorem succWriteBytes_nonneg (ops : List StreamOp) (h : opsNonneg ops) :
    0 ≤ succWriteBytes ops := by
  induction ops with
  | nil => simp [succWriteBytes]
  | cons op ops ih =>
    have hops : opsNonneg ops := fun o ho => h o (List.mem_cons_of_mem _ ho)
    cases op with
    | read r =>
      simpa [succWriteBytes] using ih hops
    | write r =>
      have := h (.write r) (List.mem_cons_self _ _)
      simp only [succWriteBytes]
      have h2 : (0 : Int) ≤ if r.err = none then r.n else 0 := by
        split
        · exact this (by assumption)
        · exact le_refl 0
      have := ih hops
      omega

theorem runOps_passthrough (ops : List StreamOp) (s : ReaderMetrics) :
    (runOps s ops).1 = ops.map StreamOp.res := by
  induction ops generalizing s with
  | nil => simp [runOps]
  | cons op ops ih =>
    cases op <;> simp [runOps, rmRead, rmWrite, StreamOp.res, ih]

theorem runOps_nRead (ops : List StreamOp) (s : ReaderMetrics)
    (hn : opsNonneg ops) (h0 : 0 ≤ s.nRead)
    (hb : s.nRead + succReadBytes ops < 2 ^ 63) :
    (runOps s ops).2.nRead = s.nRead + succReadBytes ops := by
  induction ops generalizing s with
  | nil => simp [runOps, succReadBytes]
  | cons op ops ih =>
    have hops : opsNonneg ops := fun o ho => hn o (List.mem_cons_of_mem _ ho)
    have hrest : 0 ≤ succReadBytes ops := succReadBytes_nonneg ops hops
    cases op with
    | read r =>
      by_cases he : r.err = none
      · have hrn : 0 ≤ r.n := hn (.read r) (List.mem_cons_self _ _) he
        have hsucc : succReadBytes (.read r :: ops) = r.n + succReadBytes ops := by
          simp [succReadBytes, he]
        rw [hsucc] at hb ⊢
        have hw : wrap64 (s.nRead + r.n) = s.nRead + r.n :=
          wrap64_id _ (by omega) (by omega)
        have hstep : (runOps s (.read r :: ops)).2 =
            (runOps { s with nRead := s.nRead + r.n } ops).2 := by
          simp [runOps, rmRead, he, hw]
        rw [hstep]
        have hrec := ih { s with nRead := s.nRead + r.n } hops
          (by simp only []; omega) (by simp only []; omega)
        simp only [] at hrec
        rw [hrec]
        omega
      · have hsucc : succReadBytes (.read r :: ops) = succReadBytes ops := by
          simp [succReadBytes, he]
        rw [hsucc] at hb ⊢
        have hstep : (runOps s (.read r :: ops)).2 = (runOps s ops).2 := by
          simp [runOps, rmRead, he]
        rw [hstep]
        exact ih s hops h0 hb
    | write r =>
      have hsucc : succReadBytes (.write r :: ops) = succReadBytes ops := by
        simp [succReadBytes]
      rw [hsucc] at hb ⊢
      by_cases he : r.err = none
      · have hstep : (runOps s (.write r :: ops)).2 =
            (runOps { s with nWritten := wrap64 (s.nWritten + r.n) } ops).2 := by
          simp [runOps, rmWrite, he]
        rw [hstep]
        exact ih { s with nWritten := wrap64 (s.nWritten + r.n) } hops h0 hb
      · have hstep : (runOps s (.write r :: ops)).2 = (runOps s ops).2 := by
          simp [runOps, rmWrite, he]
        rw [hstep]
        exact ih s hops h0 hb

theorem runOps_nWritten (ops : List StreamOp) (s : ReaderMetrics)
    (hn : opsNonneg ops) (h0 : 0 ≤ s.nWritten)
    (hb : s.nWritten + succWriteBytes ops < 2 ^ 63) :
    (runOps s ops).2.nWritten = s.nWritten + succWriteBytes ops := by
  induction ops generalizing s with
  | nil => simp [runOps, succWriteBytes]
  | cons op ops ih =>
    have hops : opsNonneg ops := fun o ho => hn o (List.mem_cons_of_mem _ ho)
    have hrest : 0 ≤ succWriteBytes ops := succWriteBytes_nonneg ops hops
    cases op with
    | write r =>
      by_cases he : r.err = none
      · have hrn : 0 ≤ r.n := hn (.write r) (List.mem_cons_self _ _) he
        have hsucc : succWriteBytes (.write r :: ops) = r.n + succWriteBytes ops := by
          simp [succWriteBytes, he]
        rw [hsucc] at hb ⊢
        have hw : wrap64 (s.nWritten + r.n) = s.nWritten + r.n :=
          wrap64_id _ (by omega) (by omega)
        have hstep : (runOps s (.write r :: ops)).2 =
            (runOps { s with nWritten := s.nWritten + r.n } ops).2 := by
          simp [runOps, rmWrite, he, hw]
        rw [hstep]
        have hrec := ih { s with nWritten := s.nWritten + r.n } hops
          (by simp only []; omega) (by simp only []; omega)
        simp only [] at hrec
        rw [hrec]
        omega
      · have hsucc : succWriteBytes (.write r :: ops) = succWriteBytes ops := by
          simp [succWriteBytes, he]
        rw [hsucc] at hb ⊢
        have hstep : (runOps s (.write r :: ops)).2 = (runOps s ops).2 := by
          simp [runOps, rmWrite, he]
        rw [hstep]
        exact ih s hops h0 hb
    | read r =>
      have hsucc : succWriteBytes (.read r :: ops) = succWriteBytes ops := by
        simp [succWriteBytes]
      rw [hsucc] at hb ⊢
      by_cases he : r.err = none
      · have hstep : (runOps s (.read r :: ops)).2 =
            (runOps { s with nRead := wrap64 (s.nRead + r.n) } ops).2 := by
          simp [runOps, rmRead, he]
        rw [hstep]
        exact ih { s with nRead := wrap64 (s.nRead + r.n) } hops h0 hb
      · have hstep : (runOps s (.read r :: ops)).2 = (runOps s ops).2 := by
          simp [runOps, rmRead, he]
        rw [hstep]
        exact ih s hops h0 hb

theorem initBarrier_inv : BarrierInv initBarrier := by
  simp [BarrierInv, initBarrier]

theorem stepBarrier_inv (s : BarrierState) (t : Tid) (h : BarrierInv s) :
    BarrierInv (stepBarrier s t) := by
  obtain ⟨mpc, wpc, sp, wg⟩ := s
  obtain ⟨h1, h2, h3, h4, h5⟩ := h
  cases t <;> cases sp <;> rcases mpc with _ | _ | _ | n <;> rcases wpc with _ | k <;>
    simp_all [stepBarrier, BarrierInv]

theorem runBarrierAux_inv (sched : List Tid) (s : BarrierState) (h : BarrierInv s) :
    BarrierInv (sched.foldl stepBarrier s) := by
  induction sched generalizing s with
  | nil => exact h
  | cons t ts ih => exact ih _ (stepBarrier_inv s t h)

/-- Claim C10: for every configuration passed to NewClientWithOpts, the
TLSAllowInsecure field of the supplied configuration is never copied into
the resulting client; the client's TLSAllowInsecure is always false, even
when the caller sets it to true. -/
theorem C10_tlsAllowInsecure_never_copied (disc : Option IP) (cfg : Config)
    (c : Client) (h : NewClientWithOpts disc cfg = .ok c) :
    c.cfg.TLSAllowInsecure = false := by
  cases disc with
  | none => simp [NewClientWithOpts, NewClient] at h
  | some gw =>
    simp only [NewClientWithOpts, NewClient, Except.ok.injEq] at h
    subst h
    repeat first | rfl | split

/-- Witness for C10: a configuration requesting insecure TLS still yields a
client with TLSAllowInsecure false. -/
theorem C10_witness :
    NewClientWithOpts (some "9.9.9.9") c10Cfg = .ok c10Client ∧
    c10Client.cfg.TLSAllowInsecure = false ∧ c10Cfg.TLSAllowInsecure = true :=
  ⟨rfl, C10_tlsAllowInsecure_never_copied (some "9.9.9.9") c10Cfg c10Client rfl, rfl⟩

/-- Claim C2 exhibit (code bug): a configuration supplying both GatewayIP
and Logger yields a client carrying the supplied gateway but the DEFAULT
logger, because the expressionless switch of the source executes only its
first matching case; the supplied fields are not applied independently. -/
theorem C2_exclusive_switch :
    NewClientWithOpts (some "192.168.0.1") c2Cfg =
      .ok { cfg := { GatewayIP := some "10.0.0.1",
                     InboundProxy := some defaultInboundProxy,
                     TUNAddress := some defaultTUNAddress,
                     RoutesToTUN := some DefaultRoutesToTUN,
                     TLSAllowInsecure := false,
                     Logger := some defaultLoggerId } } ∧
    c2Cfg.Logger = some 7 ∧ some defaultLoggerId ≠ some 7 :=
  ⟨rfl, rfl, by decide⟩

/-- Claim C8 counterexample: a configuration that supplies GatewayIP still
fails construction when gateway discovery fails, so discovery is not
skipped and its failure is fatal even with a supplied gateway. -/
theorem C8_counterexample :
    c8Cfg.GatewayIP = some "10.0.0.1" ∧
    NewClientWithOpts none c8Cfg = .error "discover gateway" :=
  ⟨rfl, rfl⟩

/-- Claim C8 (amended): NewClientWithOpts always performs gateway discovery
and its failure is fatal regardless of the supplied configuration; when
discovery succeeds, a supplied GatewayIP overrides the discovered one and
an absent one keeps the discovered one. -/
theorem C8_gateway_resolution (cfg : Config) (gw : IP) :
    NewClientWithOpts none cfg = .error "discover gateway" ∧
    (∀ c, NewClientWithOpts (some gw) cfg = .ok c →
      c.cfg.GatewayIP = if cfg.GatewayIP.isSome then cfg.GatewayIP else some gw) := by
  refine ⟨rfl, ?_⟩
  intro c h
  simp only [NewClientWithOpts, NewClient, Except.ok.injEq] at h
  subst h
  by_cases h1 : cfg.GatewayIP.isSome
  · simp [h1]
  · simp only [h1, if_false, Bool.false_eq_true]
    repeat first | rfl | split

/-- Witness for C8: at a concrete configuration, construction fails under
discovery failure and the supplied gateway wins under discovery success. -/
theorem C8_witness :
    NewClientWithOpts none c8Cfg = .error "discover gateway" ∧
    c8Client.cfg.GatewayIP =
      (if c8Cfg.GatewayIP.isSome then c8Cfg.GatewayIP else some "192.168.0.1") := by
  have h := C8_gateway_resolution c8Cfg "192.168.0.1"
  exact ⟨h.1, h.2 c8Client rfl⟩

/-- Claim C6: the route exception built for the remote endpoint is exactly
one destination, the endpoint address with mask length 32, and its gateway
is the configured gateway IP. -/
theorem C6_host_exact_route (gw : IP) (addr : List Char) (h : '/' ∉ addr) :
    (xrayToGatewayRoute gw addr).Routes = [{ ip := addr, maskLen := 32 }] ∧
    (xrayToGatewayRoute gw addr).Gateway = gw := by
  refine ⟨?_, rfl⟩
  show [mustParseAddr (addr ++ '/' :: ['3', '2'])] = _
  unfold mustParseAddr
  rw [splitOnSlash_append addr ['3', '2'] h]
  rfl

/-- Witness for C6: the endpoint 203.0.113.5 with gateway 10.0.0.1 yields
the host route 203.0.113.5 mask length 32 via 10.0.0.1. -/
theorem C6_witness :
    (xrayToGatewayRoute "10.0.0.1" "203.0.113.5".data).Routes =
      [{ ip := "203.0.113.5".data, maskLen := 32 }] ∧
    (xrayToGatewayRoute "10.0.0.1" "203.0.113.5".data).Gateway = "10.0.0.1" :=
  C6_host_exact_route "10.0.0.1" "203.0.113.5".data (by decide)

/-- Claim C1 counterexample: with every step succeeding except the add of
the exception route, Connect returns an error yet leaves the proxy engine
started, the TUN device open and the redirect routes installed, so the
claimed rollback does not happen. -/
theorem C1_counterexample :
    (Connect "10.0.0.1" c1Env cleanSys).1.isSome = true ∧
    (Connect "10.0.0.1" c1Env cleanSys).2.xrayStarted = true ∧
    (Connect "10.0.0.1" c1Env cleanSys).2.tunDeviceOpen = true ∧
    (Connect "10.0.0.1" c1Env cleanSys).2.tunRoutesInstalled = true :=
  ⟨rfl, rfl, rfl, rfl⟩

/-- Claim C1 (amended): Connect performs no rollback on later-step failure:
once the engine start has succeeded the engine is still running when
Connect returns whatever later steps did, and once the TUN device has been
created it is still open. -/
theorem C1_no_rollback (gw : IP) (env : ConnectEnv) (s : SysState)
    (hp : env.parseErr = none) (hm : env.makeInstanceErr = none)
    (hs : env.startErr = none) :
    (Connect gw env s).2.xrayStarted = true ∧
    (env.tunCreateErr = none → (Connect gw env s).2.tunDeviceOpen = true) := by
  constructor
  · cases hce : env.tunCreateErr <;> cases hue : env.tunUpErr <;>
      cases hre : env.tunRouteAddErr <;> cases hde : env.excDeleteErr <;>
      cases hae : env.excAddErr <;>
      simp [Connect, setupTunnel, hp, hm, hs, hce, hue, hre, hde, hae]
  · intro hce
    cases hue : env.tunUpErr <;> cases hre : env.tunRouteAddErr <;>
      cases hde : env.excDeleteErr <;> cases hae : env.excAddErr <;>
      simp [Connect, setupTunnel, hp, hm, hs, hce, hue, hre, hde, hae]

/-- Witness for C1: the amended statement at the concrete failing run. -/
theorem C1_witness :
    (Connect "10.0.0.1" c1Env cleanSys).2.xrayStarted = true ∧
    (Connect "10.0.0.1" c1Env cleanSys).2.tunDeviceOpen = true :=
  ⟨(C1_no_rollback "10.0.0.1" c1Env cleanSys rfl rfl rfl).1,
   (C1_no_rollback "10.0.0.1" c1Env cleanSys rfl rfl rfl).2 rfl⟩

/-- Claim C5: with the earlier steps succeeding, the route-exception
install makes Connect fail exactly when the add fails, and the result of
the pre-emptive delete never influences the outcome. -/
theorem C5_install_fails_iff_add_fails (gw : IP) (env : ConnectEnv) (s : SysState)
    (hp : env.parseErr = none) (hm : env.makeInstanceErr = none)
    (hs : env.startErr = none) (hc : env.tunCreateErr = none)
    (hu : env.tunUpErr = none) (hr : env.tunRouteAddErr = none) :
    ((Connect gw env s).1 = none ↔ env.excAddErr = none) ∧
    (∀ d, (Connect gw { env with excDeleteErr := d } s).1 = (Connect gw env s).1) := by
  constructor
  · cases hde : env.excDeleteErr <;> cases hae : env.excAddErr <;>
      simp [Connect, setupTunnel, hp, hm, hs, hc, hu, hr, hde, hae]
  · intro d
    cases hae : env.excAddErr <;> cases hde : env.excDeleteErr <;> cases d <;>
      simp [Connect, setupTunnel, hp, hm, hs, hc, hu, hr, hde, hae]

/-- Witness for C5: with a failing pre-emptive delete and a succeeding add,
Connect succeeds, and discarding the delete result does not change the
outcome. -/
theorem C5_witness :
    ((Connect "10.0.0.1" c5Env cleanSys).1 = none ↔ c5Env.excAddErr = none) ∧
    (Connect "10.0.0.1" { c5Env with excDeleteErr := none } cleanSys).1 =
      (Connect "10.0.0.1" c5Env cleanSys).1 := by
  have h := C5_install_fails_iff_add_fails "10.0.0.1" c5Env cleanSys
    rfl rfl rfl rfl rfl rfl
  exact ⟨h.1, h.2 none⟩

/-- Claim C3: Disconnect performs all teardown calls regardless of their
outcomes, aggregates every failure together with the wait outcome into the
single returned error, and returns nil exactly when every step succeeded. -/
theorem C3_disconnect_aggregates (env : DisconnectEnv) :
    (Disconnect env).2 = ["stopTunnel", "xInst.Close", "tunnel.Close", "route.Delete"] ∧
    leavesOpt (Disconnect env).1 =
      leavesOpt (waitErrOpt env.wait) ++
        (leavesOpt env.xrayCloseErr ++ leavesOpt env.tunCloseErr ++
          leavesOpt env.excDeleteErr) ∧
    ((Disconnect env).1 = none ↔
      waitErrOpt env.wait = none ∧ env.xrayCloseErr = none ∧
        env.tunCloseErr = none ∧ env.excDeleteErr = none) := by
  refine ⟨rfl, ?_, ?_⟩
  · show leavesOpt (errorsJoin [waitErrOpt env.wait,
      errorsJoin [env.xrayCloseErr, env.tunCloseErr, env.excDeleteErr]]) = _
    rw [leavesOpt_errorsJoin_two, leavesOpt_errorsJoin_three]
  · show errorsJoin [waitErrOpt env.wait,
      errorsJoin [env.xrayCloseErr, env.tunCloseErr, env.excDeleteErr]] = none ↔ _
    rw [errorsJoin_two_eq_none, errorsJoin_three_eq_none]

/-- Claim C4: the final wait of Disconnect is bounded by the 30-second
timeout composed with the caller's deadline, whichever expires first
governs the select, and an expiry is recorded in the aggregate error. -/
theorem C4_wait_bounded (w : WaitEnv) (e1 e2 e3 : Option GoErr) :
    waitReturnTime w ≤ w.now + disconnectTimeout ∧
    (∀ d, w.callerDeadline = some d → effectiveDeadline w ≤ d) ∧
    (∀ t, w.signalTime = some t → t ≤ effectiveDeadline w →
      waitSelect w = .tunnelStopped w.copyErr) ∧
    (∀ t, w.signalTime = some t → effectiveDeadline w < t →
      waitSelect w = .ctxDone "context deadline exceeded") ∧
    (w.signalTime = none → waitSelect w = .ctxDone "context deadline exceeded") ∧
    (∀ m, waitSelect w = .ctxDone m →
      m ∈ leavesOpt (Disconnect ⟨e1, e2, e3, waitSelect w⟩).1) := by
  have hd : effectiveDeadline w ≤ w.now + disconnectTimeout := by
    unfold effectiveDeadline
    cases w.callerDeadline <;> simp
  refine ⟨?_, ?_, ?_, ?_, ?_, ?_⟩
  · unfold waitReturnTime
    cases hs : w.signalTime <;> simp [hs] <;> omega
  · intro d hdl
    unfold effectiveDeadline
    rw [hdl]
    simp
  · intro t ht hle
    unfold waitSelect
    rw [ht]
    simp [hle]
  · intro t ht hgt
    unfold waitSelect
    rw [ht]
    have hn : ¬ t ≤ effectiveDeadline w := by omega
    simp [hn]
  · intro hnone
    unfold waitSelect
    rw [hnone]
  · intro m hm
    show m ∈ leavesOpt (errorsJoin [waitErrOpt (waitSelect w),
      errorsJoin [e1, e2, e3]])
    rw [leavesOpt_errorsJoin_two, hm]
    simp [waitErrOpt, leavesOpt, GoErr.leaves]

/-- Witness for C4: when the copy loop never signals and the caller set no
deadline, the select expires at the bound and the context error is in the
aggregate. -/
theorem C4_witness :
    waitReturnTime c4Wait ≤ c4Wait.now + disconnectTimeout ∧
    waitSelect c4Wait = .ctxDone "context deadline exceeded" ∧
    "context deadline exceeded" ∈
      leavesOpt (Disconnect ⟨none, none, none, waitSelect c4Wait⟩).1 := by
  have h := C4_wait_bounded c4Wait none none none
  exact ⟨h.1, h.2.2.2.2.1 rfl,
    h.2.2.2.2.2 "context deadline exceeded" (h.2.2.2.2.1 rfl)⟩

/-- Claim C7: over any call sequence, the instrumented stream passes every
underlying result through unchanged, its counters equal the sums of the
byte counts of the successful calls (reads and writes separately, within
the 64-bit range), and a failed call leaves its counter unchanged. -/
theorem C7_readerMetrics (ops : List StreamOp) (hn : opsNonneg ops)
    (hr : succReadBytes ops < 2 ^ 63) (hw : succWriteBytes ops < 2 ^ 63) :
    (runOps newReaderMetrics ops).1 = ops.map StreamOp.res ∧
    (runOps newReaderMetrics ops).2.nRead = succReadBytes ops ∧
    (runOps newReaderMetrics ops).2.nWritten = succWriteBytes ops ∧
    (∀ s r, r.err ≠ none → (rmRead s r).2 = s ∧ (rmWrite s r).2 = s) ∧
    (∀ s r, (rmRead s r).1 = r ∧ (rmWrite s r).1 = r) := by
  refine ⟨runOps_passthrough ops newReaderMetrics, ?_, ?_, ?_, ?_⟩
  · have h := runOps_nRead ops newReaderMetrics hn (by simp [newReaderMetrics])
      (by simp [newReaderMetrics]; omega)
    simpa [newReaderMetrics] using h
  · have h := runOps_nWritten ops newReaderMetrics hn (by simp [newReaderMetrics])
      (by simp [newReaderMetrics]; omega)
    simpa [newReaderMetrics] using h
  · intro s r hre
    constructor <;> simp [rmRead, rmWrite, hre]
  · intro s r
    exact ⟨rfl, rfl⟩

/-- Witness for C7: a concrete sequence with a failed write: the counters
hold the successful sums and outputs pass through. -/
theorem C7_witness :
    (runOps newReaderMetrics c7Ops).1 = c7Ops.map StreamOp.res ∧
    (runOps newReaderMetrics c7Ops).2.nRead = succReadBytes c7Ops ∧
    (runOps newReaderMetrics c7Ops).2.nWritten = succWriteBytes c7Ops := by
  have h := C7_readerMetrics c7Ops (by decide) (by decide) (by decide)
  exact ⟨h.1, h.2.1, h.2.2.1⟩

/-- Claim C9: in every interleaving of the barrier at the end of Connect,
if the main thread has returned from Connect then the copy-loop goroutine
has executed its first statement: the wait is a barrier on the loop's
actual start, not merely on its being scheduled. -/
theorem C9_connect_barrier (sched : List Tid)
    (h : (runBarrier sched).mainPC = 3) : 1 ≤ (runBarrier sched).workerPC :=
  (runBarrierAux_inv sched initBarrier initBarrier_inv).2.2.2.2 h

/-- Witness for C9: a concrete schedule under which Connect returns, with
the goroutine started. -/
theorem C9_witness :
    (runBarrier c9Sched).mainPC = 3 ∧ 1 ≤ (runBarrier c9Sched).workerPC :=
  ⟨by decide, C9_connect_barrier c9Sched (by decide)⟩

end GoxrayTun
